import Mathlib

/-!
Verification of the search-and-aggregation subsystem of a meeting-search
tool server (the file `tools/search.py`).

Python strings are modelled as `List Char` (`PyStr`); a possibly-missing
(`None`) value is an `Option`.  Python dictionaries with a fixed key set
are modelled as structures whose optional keys are `Option` fields; a key
that may be entirely absent from a produced dictionary (such as
`found_in_transcript` or `searched_transcripts`) is an `Option` field
where `none` means "key absent".  The upstream API client is passed in
explicitly: the n-th page fetch returns `upstream n`, and a transcript
fetch for a recording id returns an `Except`, modelling a Python call
that may raise.  `search_meetings` additionally returns the number of
page fetches and transcript fetches it performed, so that statements
about "no upstream call" and "at most 10 page fetches" can be made.
-/

abbrev PyStr := List Char

/-- Python `str.lower()` on the basic latin range, applied characterwise. -/
def pyLower (s : PyStr) : PyStr := s.map Char.toLower

/-- The characters removed by `.replace(" ", "").replace("-", "").replace("_", "")`. -/
def isStrippedChar (c : Char) : Bool := c == ' ' || c == '-' || c == '_'

/-- Python's substring containment test `needle in hay` for strings. -/
def pyIn (needle : PyStr) : PyStr → Bool
  | [] => needle.isPrefixOf []
  | b :: t => needle.isPrefixOf (b :: t) || pyIn needle t

/-- `_normalize_search`: lowercase, remove spaces/hyphens/underscores, and
drop a trailing `'s'` when the result has length greater than 2. -/
def _normalize_search (text : PyStr) : PyStr :=
  let normalized := (pyLower text).filter (fun c => !(isStrippedChar c))
  if normalized.getLast? = some 's' ∧ 2 < normalized.length then
    normalized.dropLast
  else
    normalized

/-- Python dynamic semantics of calling `_normalize_search` with an argument
that may be `None`: `None.lower()` raises `AttributeError`, any actual
string is normalized and returned normally. -/
def _normalize_search_checked : Option PyStr → Except PyStr PyStr
  | none => Except.error ("AttributeError".data)
  | some s => Except.ok (_normalize_search s)

/-- The default whitespace set of Python `str.strip()` (ASCII part). -/
def isPyWS (c : Char) : Bool :=
  c == ' ' || c == '\t' || c == '\n' || c == '\r' || c.toNat == 11 || c.toNat == 12

/-- Python `str.strip()`: remove leading and trailing whitespace. -/
def pyStrip (s : PyStr) : PyStr :=
  ((s.dropWhile isPyWS).reverse.dropWhile isPyWS).reverse

/-- One entry of `calendar_invitees`: a mapping with `name` and `email` keys. -/
structure Invitee where
  name : Option PyStr := none
  email : Option PyStr := none
deriving DecidableEq, Repr

/-- One entry of `teams` or `topics`: either a mapping with an optional
`name` key, or a bare value whose `str()` form is carried. -/
inductive TeamRef where
  | named (name : Option PyStr)
  | bare (s : PyStr)
deriving DecidableEq, Repr

/-- The `default_summary` value: either a mapping with an optional
`markdown_formatted` key, or a plain string. -/
inductive Summary where
  | mapping (markdown_formatted : Option PyStr)
  | plain (s : PyStr)
deriving DecidableEq, Repr

/-- One transcript entry: a mapping with an optional `text` key
(`entry.get("text", "")` yields `""` when absent), or a non-mapping value. -/
inductive TranscriptEntry where
  | dictEntry (text : Option PyStr)
  | nonDict
deriving DecidableEq, Repr

/-- A `transcript` value: either a list of entries or a plain string. -/
inductive Transcript where
  | entries (l : List TranscriptEntry)
  | text (s : PyStr)
deriving DecidableEq, Repr

/-- A meeting record as consumed by the search tool; `none` is a missing
or `None`-valued key. -/
structure Meeting where
  title : Option PyStr := none
  meeting_title : Option PyStr := none
  recording_id : Option Nat := none
  url : Option PyStr := none
  share_url : Option PyStr := none
  created_at : Option PyStr := none
  scheduled_start_time : Option PyStr := none
  scheduled_end_time : Option PyStr := none
  recording_start_time : Option PyStr := none
  recording_end_time : Option PyStr := none
  transcript_language : Option PyStr := none
  calendar_invitees : Option (List Invitee) := none
  recorded_by : Option PyStr := none
  teams : Option (List TeamRef) := none
  topics : Option (List TeamRef) := none
  default_summary : Option Summary := none
  transcript : Option Transcript := none
deriving DecidableEq, Repr

/-- The result shape built by `_filter_meeting_fields`.  The
`found_in_transcript` field is `none` when the key is absent from the
produced dictionary. -/
structure ProjectedResult where
  title : Option PyStr
  recording_id : Option Nat
  url : Option PyStr
  share_url : Option PyStr
  created_at : Option PyStr
  scheduled_start_time : Option PyStr
  scheduled_end_time : Option PyStr
  recording_start_time : Option PyStr
  recording_end_time : Option PyStr
  transcript_language : Option PyStr
  calendar_invitees : Option (List Invitee)
  recorded_by : Option PyStr
  teams : Option (List TeamRef)
  topics : Option (List TeamRef)
  summary : Option PyStr
  found_in_transcript : Option Bool
deriving DecidableEq, Repr

/-- `_filter_meeting_fields`: project a meeting onto the public result
fields, flattening `default_summary` and attaching `found_in_transcript`
only when the flag is true. -/
def _filter_meeting_fields (meeting : Meeting) (found_in_transcript : Bool) :
    ProjectedResult :=
  let summary_text : Option PyStr :=
    match meeting.default_summary with
    | some (Summary.mapping md) => md
    | some (Summary.plain s) => some s
    | none => none
  { title := meeting.title
    recording_id := meeting.recording_id
    url := meeting.url
    share_url := meeting.share_url
    created_at := meeting.created_at
    scheduled_start_time := meeting.scheduled_start_time
    scheduled_end_time := meeting.scheduled_end_time
    recording_start_time := meeting.recording_start_time
    recording_end_time := meeting.recording_end_time
    transcript_language := meeting.transcript_language
    calendar_invitees := meeting.calendar_invitees
    recorded_by := meeting.recorded_by
    teams := meeting.teams
    topics := meeting.topics
    summary := summary_text
    found_in_transcript := if found_in_transcript then some true else none }

/-- `team.get("name") or "" if isinstance(team, dict) else str(team)`. -/
def teamRefText : TeamRef → PyStr
  | TeamRef.named n => n.getD []
  | TeamRef.bare s => s

/-- `_meeting_matches_search`: metadata matching over title, meeting
title, invitees, teams, topics and a mapping-shaped summary, returning
`(matches, found_in_transcript)` with the flag always false. -/
def _meeting_matches_search (meeting : Meeting) (search_normalized : PyStr) :
    Bool × Bool :=
  if pyIn search_normalized (_normalize_search (meeting.title.getD [])) then
    (true, false)
  else if pyIn search_normalized (_normalize_search (meeting.meeting_title.getD [])) then
    (true, false)
  else if (meeting.calendar_invitees.getD []).any (fun invitee =>
      pyIn search_normalized (_normalize_search (invitee.name.getD [])) ||
      pyIn search_normalized (pyLower (invitee.email.getD []))) then
    (true, false)
  else if (meeting.teams.getD []).any (fun team =>
      pyIn search_normalized (_normalize_search (teamRefText team))) then
    (true, false)
  else if (meeting.topics.getD []).any (fun topic =>
      pyIn search_normalized (_normalize_search (teamRefText topic))) then
    (true, false)
  else
    let summary_text : Option PyStr :=
      match meeting.default_summary with
      | some (Summary.mapping md) => md
      | _ => none
    match summary_text with
    | some t =>
        if !t.isEmpty && pyIn search_normalized (_normalize_search t) then
          (true, false)
        else
          (false, false)
    | none => (false, false)

/-- Python truthiness of a possibly-missing `transcript` value. -/
def transcriptTruthy : Option Transcript → Bool
  | none => false
  | some (Transcript.entries l) => !l.isEmpty
  | some (Transcript.text s) => !s.isEmpty

/-- `_meeting_matches_search_with_transcript`: metadata matching first;
only when it fails, scan the transcript, reporting a transcript match
with flag true. -/
def _meeting_matches_search_with_transcript (meeting : Meeting)
    (search_normalized : PyStr) : Bool × Bool :=
  if (_meeting_matches_search meeting search_normalized).1 then
    (true, false)
  else if transcriptTruthy meeting.transcript then
    match meeting.transcript with
    | some (Transcript.entries l) =>
        if l.any (fun entry =>
            match entry with
            | TranscriptEntry.dictEntry t =>
                pyIn search_normalized (_normalize_search (t.getD []))
            | TranscriptEntry.nonDict => false) then
          (true, true)
        else
          (false, false)
    | some (Transcript.text s) =>
        if pyIn search_normalized (_normalize_search s) then (true, true)
        else (false, false)
    | none => (false, false)
  else
    (false, false)

/-- One page returned by `client.get_meetings`. -/
structure PageResponse where
  items : List Meeting := []
  cursor : Option PyStr := none
deriving DecidableEq, Repr

/-- Python truthiness of a cursor value (`None` and `""` are falsy). -/
def cursorTruthy : Option PyStr → Bool
  | none => false
  | some s => !s.isEmpty

/-- The pagination loop of `search_meetings`: `pagesLeft` is how many of
the `max_pages` iterations remain, `fetches` counts `get_meetings` calls
made so far, `acc` is `all_meetings`.  Returns the accumulated records
and the total fetch count. -/
def collectLoop (upstream : Nat → PageResponse) :
    Nat → Nat → List Meeting → List Meeting × Nat
  | 0, fetches, acc => (acc, fetches)
  | pagesLeft + 1, fetches, acc =>
    let response := upstream fetches
    if response.items.isEmpty then
      (acc, fetches + 1)
    else if cursorTruthy response.cursor then
      collectLoop upstream pagesLeft (fetches + 1) (acc ++ response.items)
    else
      (acc ++ response.items, fetches + 1)

/-- The full pagination phase: up to `max_pages = 10` fetches. -/
def collectPages (upstream : Nat → PageResponse) : List Meeting × Nat :=
  collectLoop upstream 10 0 []

/-- Hydration of one record: when the record has no truthy transcript and
a truthy `recording_id`, call `get_transcript`; on success attach the
fetched body, on any exception leave the record unchanged.  The second
component counts fetches issued. -/
def hydrateOne (fetchT : Nat → Except PyStr (Option Transcript))
    (meeting : Meeting) : Meeting × Nat :=
  if transcriptTruthy meeting.transcript then
    (meeting, 0)
  else
    match meeting.recording_id with
    | none => (meeting, 0)
    | some rid =>
      if rid = 0 then
        (meeting, 0)
      else
        match fetchT rid with
        | Except.ok t => ({ meeting with transcript := t }, 1)
        | Except.error _ => (meeting, 1)

/-- The hydration phase: every record is hydrated independently; a
failure on one record leaves it unchanged and never touches the rest. -/
def hydrate (fetchT : Nat → Except PyStr (Option Transcript))
    (meetings : List Meeting) : List Meeting × Nat :=
  (meetings.map (fun m => (hydrateOne fetchT m).1),
   (meetings.map (fun m => (hydrateOne fetchT m).2)).sum)

/-- The dictionary returned by `search_meetings`; `searched_transcripts`
is `none` when that key is absent from the returned dictionary. -/
structure SearchResult where
  items : List ProjectedResult
  query : PyStr
  total_matches : Nat
  searched_transcripts : Option Bool
deriving DecidableEq, Repr

/-- `search_meetings`: validate the query, collect pages, optionally
hydrate transcripts, match, and project.  Also returns the number of
page fetches and of transcript fetches performed (both `0` on the
empty-query branch, which precedes any upstream call). -/
def search_meetings (upstream : Nat → PageResponse)
    (fetchT : Nat → Except PyStr (Option Transcript))
    (query : PyStr) (include_transcript : Bool) :
    SearchResult × Nat × Nat :=
  if query.isEmpty || (pyStrip query).isEmpty then
    ({ items := [], query := query, total_matches := 0, searched_transcripts := none },
     0, 0)
  else
    let search_normalized := _normalize_search query
    let collected := collectPages upstream
    let hydrated :=
      if include_transcript then hydrate fetchT collected.1
      else (collected.1, 0)
    let matched_meetings : List (Meeting × Bool) :=
      if include_transcript then
        hydrated.1.filterMap (fun m =>
          let r := _meeting_matches_search_with_transcript m search_normalized
          if r.1 then some (m, r.2) else none)
      else
        hydrated.1.filterMap (fun m =>
          if (_meeting_matches_search m search_normalized).1 then some (m, false)
          else none)
    let filtered_meetings := matched_meetings.map (fun p => _filter_meeting_fields p.1 p.2)
    ({ items := filtered_meetings
       query := query
       total_matches := matched_meetings.length
       searched_transcripts := some include_transcript },
     collected.2, hydrated.2)

/-! ### Shared lemmas -/

theorem pyIn_nil_left (hay : PyStr) : pyIn [] hay = true := by
  cases hay <;> simp [pyIn, List.isPrefixOf]

theorem toNat_ofNat_valid {n : Nat} (h : n.isValidChar) : (Char.ofNat n).toNat = n := by
  rw [Char.ofNat, dif_pos h]
  rfl

theorem toLower_toLower (c : Char) : c.toLower.toLower = c.toLower := by
  unfold Char.toLower
  by_cases h : c.toNat ≥ 65 ∧ c.toNat ≤ 90
  · rw [if_pos h]
    have hv : (c.toNat + 32).isValidChar := Or.inl (by omega)
    rw [toNat_ofNat_valid hv, if_neg (by omega)]
  · rw [if_neg h, if_neg h]

theorem map_eq_self_of {α : Type} (f : α → α) (l : List α) (h : ∀ a ∈ l, f a = a) :
    l.map f = l := by
  induction l with
  | nil => rfl
  | cons a t ih =>
    rw [List.map_cons, h a (by simp), ih (fun b hb => h b (by simp [hb]))]

theorem mem_normalize {c : Char} {x : PyStr} (h : c ∈ _normalize_search x) :
    c.toLower = c ∧ isStrippedChar c = false := by
  simp only [_normalize_search] at h
  have h' : c ∈ (pyLower x).filter (fun c => !(isStrippedChar c)) := by
    split at h
    · exact List.mem_of_mem_dropLast h
    · exact h
  obtain ⟨hmem, hp⟩ := List.mem_filter.mp h'
  refine ⟨?_, by simpa using hp⟩
  obtain ⟨a, _, rfl⟩ := List.mem_map.mp hmem
  exact toLower_toLower a

/-! ### C2: idempotence of the normalizer -/

/-- C2 counterexample: normalizing `"boss"` yields `"bos"`, and normalizing
again yields `"bo"`, so `normalize(normalize(x)) == normalize(x)` fails at
`x = "boss"`. -/
theorem normalize_not_idempotent_cex :
    _normalize_search ("boss".data) = ("bos".data) ∧
    _normalize_search (_normalize_search ("boss".data)) = ("bo".data) := by
  constructor <;> decide

/-- C2 amended: the normalizer is idempotent on every input whose
normalized form does not again end in `'s'` with length greater than 2;
re-normalizing such a form strips one further trailing `'s'`. -/
theorem normalize_idempotent_amended (x : PyStr)
    (h : ¬((_normalize_search x).getLast? = some 's' ∧ 2 < (_normalize_search x).length)) :
    _normalize_search (_normalize_search x) = _normalize_search x := by
  have hy1 : ∀ a ∈ _normalize_search x, Char.toLower a = a :=
    fun a ha => (mem_normalize ha).1
  have hy2 : ∀ a ∈ _normalize_search x, isStrippedChar a = false :=
    fun a ha => (mem_normalize ha).2
  set y := _normalize_search x with hy
  have hmap : pyLower y = y := map_eq_self_of Char.toLower y hy1
  have hfil : y.filter (fun c => !(isStrippedChar c)) = y :=
    List.filter_eq_self.mpr (fun a ha => by simp [hy2 a ha])
  simp only [_normalize_search, hmap, hfil]
  rw [if_neg h]

/-- C2 amended witness: at `x = "cat"` the side condition holds and
normalization is idempotent. -/
theorem normalize_idempotent_witness :
    _normalize_search (_normalize_search ("cat".data)) = _normalize_search ("cat".data) :=
  normalize_idempotent_amended ("cat".data) (by decide)

/-! ### C3: totality of the normalizer -/

/-- C3 counterexample: calling `_normalize_search` with `None` raises
`AttributeError` (`None` has no `.lower`), rather than returning `""`. -/
theorem normalize_none_raises_cex :
    _normalize_search_checked none = Except.error ("AttributeError".data) := rfl

/-- C3 amended: the normalizer never raises on any actual string
(including the empty string, which normalizes to itself), but
`normalize(None)` raises `AttributeError` instead of returning `""`;
call sites avoid this by coercing missing field values with `or ""`
before normalizing. -/
theorem normalize_total_on_strings_amended :
    (∀ s : PyStr, _normalize_search_checked (some s) = Except.ok (_normalize_search s)) ∧
    _normalize_search [] = [] ∧
    (∃ e, _normalize_search_checked none = Except.error e) :=
  ⟨fun _ => rfl, rfl, ⟨_, rfl⟩⟩

/-! ### C1: plain-string summaries and the field matcher -/

/-- C1 counterexample: for a record whose `default_summary` is the plain
string `"hello"`, the normalized query `"hello"` is a substring of the
normalized summary, yet `_meeting_matches_search` reports no match — the
matcher only consults mapping-shaped summaries. -/
theorem plain_summary_not_matched_cex :
    pyIn (_normalize_search ("hello".data))
      (_normalize_search ("hello".data)) = true ∧
    _meeting_matches_search
      { default_summary := some (Summary.plain ("hello".data)) }
      (_normalize_search ("hello".data)) = (false, false) := by
  constructor <;> decide

/-- C1 amended: the Field Matcher consults the summary only when
`default_summary` is a mapping: a truthy `markdown_formatted` text
containing the normalized query yields a match, while a plain-string
`default_summary` is ignored entirely — the matcher behaves as if the
summary were absent (plain strings are only flattened into the projected
output, not searched). -/
theorem summary_matching_amended :
    (∀ (m : Meeting) (sn md : PyStr),
      m.default_summary = some (Summary.mapping (some md)) → md ≠ [] →
      pyIn sn (_normalize_search md) = true →
      (_meeting_matches_search m sn).1 = true) ∧
    (∀ (m : Meeting) (sn : PyStr) (s : PyStr),
      m.default_summary = some (Summary.plain s) →
      _meeting_matches_search m sn =
        _meeting_matches_search { m with default_summary := none } sn) := by
  constructor
  · intro m sn md hsum hmd hin
    have hmd' : md.isEmpty = false := by
      cases md with
      | nil => exact absurd rfl hmd
      | cons a t => rfl
    simp only [_meeting_matches_search, hsum]
    split
    · rfl
    split
    · rfl
    split
    · rfl
    split
    · rfl
    split
    · rfl
    simp [hmd', hin]
  · intro m sn s hsum
    simp only [_meeting_matches_search, hsum]

/-- C1 amended witness: a record whose mapping summary is `"hello"`
matches the query `"hello"`. -/
theorem summary_matching_witness :
    (_meeting_matches_search
      { default_summary := some (Summary.mapping (some ("hello".data))) }
      ("hello".data)).1 = true :=
  summary_matching_amended.1
    { default_summary := some (Summary.mapping (some ("hello".data))) }
    ("hello".data) ("hello".data) rfl (by decide) (by decide)

/-! ### C5: metadata precedence over transcript matches -/

/-- C5: whenever the metadata matcher accepts a record, the transcript
matcher returns `(True, False)` — provenance is false even when the
record's transcript also contains the query, and the transcript is never
able to flip the flag. -/
theorem metadata_match_precedence (m : Meeting) (sn : PyStr)
    (h : (_meeting_matches_search m sn).1 = true) :
    _meeting_matches_search_with_transcript m sn = (true, false) := by
  simp [_meeting_matches_search_with_transcript, h]

/-- C5 witness: a record matching on its title whose transcript also
contains the query still reports `found_in_transcript = False`. -/
theorem metadata_match_precedence_witness :
    (_meeting_matches_search
      { title := some ("demo".data),
        transcript := some (Transcript.text ("demo".data)) } ("demo".data)).1 = true ∧
    _meeting_matches_search_with_transcript
      { title := some ("demo".data),
        transcript := some (Transcript.text ("demo".data)) } ("demo".data) =
      (true, false) :=
  ⟨by decide,
   metadata_match_precedence
     { title := some ("demo".data), transcript := some (Transcript.text ("demo".data)) }
     ("demo".data) (by decide)⟩

/-! ### C8: the found_in_transcript key of projected results -/

/-- C8: a projected result carries the `found_in_transcript` key (with
value `True`) exactly when the provenance flag is true; when the flag is
false the key is absent, never present with value `False`. -/
theorem found_in_transcript_key (m : Meeting) (flag : Bool) :
    ((_filter_meeting_fields m flag).found_in_transcript = some true ↔ flag = true) ∧
    (_filter_meeting_fields m flag).found_in_transcript ≠ some false ∧
    (flag = false → (_filter_meeting_fields m flag).found_in_transcript = none) := by
  cases flag <;> simp [_filter_meeting_fields]

/-- C8 witness: at a concrete record, flag `true` yields the key with
value `true` and flag `false` leaves the key absent. -/
theorem found_in_transcript_key_witness :
    (_filter_meeting_fields ({} : Meeting) true).found_in_transcript = some true ∧
    (_filter_meeting_fields ({} : Meeting) false).found_in_transcript = none :=
  ⟨(found_in_transcript_key {} true).1.mpr rfl,
   (found_in_transcript_key {} false).2.2 rfl⟩

/-! ### C6: the pagination fetch bound -/

theorem collectLoop_fetches_le (upstream : Nat → PageResponse)
    (pagesLeft fetches : Nat) (acc : List Meeting) :
    (collectLoop upstream pagesLeft fetches acc).2 ≤ fetches + pagesLeft := by
  induction pagesLeft generalizing fetches acc with
  | zero => simp [collectLoop]
  | succ k ih =>
    simp only [collectLoop]
    split
    · simp
    split
    · exact le_trans (ih (fetches + 1) _) (by omega)
    · simp

/-- C6: a search invocation never issues more than 10 list-meetings page
fetches, whatever pages and cursors the upstream keeps returning. -/
theorem page_fetches_le_ten (upstream : Nat → PageResponse)
    (fetchT : Nat → Except PyStr (Option Transcript))
    (query : PyStr) (include_transcript : Bool) :
    (search_meetings upstream fetchT query include_transcript).2.1 ≤ 10 := by
  unfold search_meetings
  split
  · simp
  · simpa using collectLoop_fetches_le upstream 10 0 []

/-! ### C7: the empty-query terminal branch -/

/-- C7: a query that is empty or entirely whitespace produces the normal
success `{items: [], query: <original>, total_matches: 0}` (with no
`searched_transcripts` key) and performs no page fetch and no transcript
fetch. -/
theorem empty_query_terminal (upstream : Nat → PageResponse)
    (fetchT : Nat → Except PyStr (Option Transcript))
    (query : PyStr) (include_transcript : Bool)
    (hws : query.all isPyWS = true) :
    search_meetings upstream fetchT query include_transcript =
      ({ items := [], query := query, total_matches := 0,
         searched_transcripts := none }, 0, 0) := by
  have hcond : (query.isEmpty || (pyStrip query).isEmpty) = true := by
    cases query with
    | nil => rfl
    | cons a t =>
      have hdrop : (a :: t).dropWhile isPyWS = [] :=
        List.dropWhile_eq_nil_iff.mpr
          (fun x hx => List.all_eq_true.mp hws x hx)
      simp [pyStrip, hdrop]
  simp [search_meetings, hcond]

/-- C7 witness: the query `" "` takes the terminal branch with zero
upstream calls. -/
theorem empty_query_terminal_witness :
    ((" ".data).all isPyWS = true) ∧
    search_meetings (fun _ => {}) (fun _ => Except.error []) (" ".data) false =
      ({ items := [], query := (" ".data), total_matches := 0,
         searched_transcripts := none }, 0, 0) :=
  ⟨by decide,
   empty_query_terminal (fun _ => {}) (fun _ => Except.error []) (" ".data) false
     (by decide)⟩

/-! ### C4: the shape of the returned dictionary -/

/-- C4 counterexample: on the empty-query branch the returned dictionary
has no `searched_transcripts` key even though `include_transcript` was
`true`, so the claimed four-key shape does not hold on that branch. -/
theorem empty_branch_shape_cex :
    (search_meetings (fun _ => {}) (fun _ => Except.error []) [] true).1.searched_transcripts
      = none := by
  decide

/-- C4 amended: every successful result satisfies
`total_matches = len(items)` and `query = <original>`; on the non-empty
path the result carries all four keys with
`searched_transcripts = include_transcript`, while the empty-query
terminal branch returns only `items`, `query` and `total_matches` (the
`searched_transcripts` key is absent). -/
theorem result_shape_amended (upstream : Nat → PageResponse)
    (fetchT : Nat → Except PyStr (Option Transcript))
    (query : PyStr) (include_transcript : Bool) :
    (search_meetings upstream fetchT query include_transcript).1.total_matches =
      (search_meetings upstream fetchT query include_transcript).1.items.length ∧
    (search_meetings upstream fetchT query include_transcript).1.query = query ∧
    ((query.isEmpty || (pyStrip query).isEmpty) = false →
      (search_meetings upstream fetchT query include_transcript).1.searched_transcripts =
        some include_transcript) ∧
    ((query.isEmpty || (pyStrip query).isEmpty) = true →
      (search_meetings upstream fetchT query include_transcript).1.searched_transcripts =
        none) := by
  cases hc : (query.isEmpty || (pyStrip query).isEmpty) <;>
    simp [search_meetings, hc]

/-- C4 amended witness: at the query `"x"` (non-empty path) the keys and
counts line up. -/
theorem result_shape_witness :
    (search_meetings (fun _ => {}) (fun _ => Except.error []) ("x".data) true).1.total_matches =
      (search_meetings (fun _ => {}) (fun _ => Except.error []) ("x".data) true).1.items.length ∧
    (search_meetings (fun _ => {}) (fun _ => Except.error []) ("x".data) true).1.searched_transcripts =
      some true :=
  ⟨(result_shape_amended (fun _ => {}) (fun _ => Except.error []) ("x".data) true).1,
   (result_shape_amended (fun _ => {}) (fun _ => Except.error []) ("x".data) true).2.2.1
     (by decide)⟩

/-! ### C9: partial-failure tolerance of transcript hydration -/

/-- C9: a failed transcript fetch is absorbed by hydration: the affected
record comes out unchanged (so it proceeds through matching on metadata
only), the list keeps its length, and every position of the output
depends only on the record at that position — one failed fetch never
disturbs the hydration of any other record, and the phase as a whole
returns normally. -/
theorem hydration_partial_failure
    (fetchT : Nat → Except PyStr (Option Transcript))
    (meetings : List Meeting) (i : Nat) (m : Meeting) (rid : Nat) (e : PyStr)
    (hm : meetings[i]? = some m)
    (hT : transcriptTruthy m.transcript = false)
    (hrid : m.recording_id = some rid)
    (h0 : rid ≠ 0)
    (hfail : fetchT rid = Except.error e) :
    (hydrate fetchT meetings).1[i]? = some m ∧
    (hydrate fetchT meetings).1.length = meetings.length ∧
    (∀ j : Nat, (hydrate fetchT meetings).1[j]? =
      (meetings[j]?).map (fun r => (hydrateOne fetchT r).1)) := by
  have hone : (hydrateOne fetchT m).1 = m := by
    simp only [hydrateOne, hT, hrid, Bool.false_eq_true, if_false, if_neg h0, hfail]
  refine ⟨?_, by simp [hydrate], fun j => by simp [hydrate]⟩
  simp [hydrate, hm, hone]

/-- C9 witness: with two records and a fetcher failing only on the first
recording id, the first record is unchanged and the second is hydrated. -/
theorem hydration_partial_failure_witness :
    (hydrate
      (fun r => if r = 1 then Except.error ("boom".data)
                else Except.ok (some (Transcript.text ("hi".data))))
      [{ recording_id := some 1 }, { recording_id := some 2 }]).1[0]? =
      some { recording_id := some 1 } ∧
    (hydrate
      (fun r => if r = 1 then Except.error ("boom".data)
                else Except.ok (some (Transcript.text ("hi".data))))
      [{ recording_id := some 1 }, { recording_id := some 2 }]).1[1]? =
      some { recording_id := some 2,
             transcript := some (Transcript.text ("hi".data)) } :=
  ⟨(hydration_partial_failure
      (fun r => if r = 1 then Except.error ("boom".data)
                else Except.ok (some (Transcript.text ("hi".data))))
      [{ recording_id := some 1 }, { recording_id := some 2 }]
      0 { recording_id := some 1 } 1 ("boom".data)
      (by decide) (by decide) (by decide) (by decide) rfl).1,
   by
    have h := (hydration_partial_failure
      (fun r => if r = 1 then Except.error ("boom".data)
                else Except.ok (some (Transcript.text ("hi".data))))
      [{ recording_id := some 1 }, { recording_id := some 2 }]
      0 { recording_id := some 1 } 1 ("boom".data)
      (by decide) (by decide) (by decide) (by decide) rfl).2.2 1
    rw [h]
    decide⟩

/-! ### C10: separator-only queries match everything -/

theorem matches_nil_query (m : Meeting) : _meeting_matches_search m [] = (true, false) := by
  simp [_meeting_matches_search, pyIn_nil_left]

theorem matches_with_transcript_nil_query (m : Meeting) :
    _meeting_matches_search_with_transcript m [] = (true, false) := by
  simp [_meeting_matches_search_with_transcript, matches_nil_query]

theorem normalize_eq_nil {q : PyStr}
    (hq : ∀ c ∈ q, c = ' ' ∨ c = '-' ∨ c = '_') : _normalize_search q = [] := by
  have hfil : (pyLower q).filter (fun c => !(isStrippedChar c)) = [] := by
    rw [List.filter_eq_nil_iff]
    intro a ha
    simp only [pyLower] at ha
    obtain ⟨b, hb, rfl⟩ := List.mem_map.mp ha
    rcases hq b hb with rfl | rfl | rfl <;> decide
  simp [_normalize_search, hfil]

theorem strip_ne_nil_of_mem {q : PyStr} {c : Char} (hc : c ∈ q)
    (hw : isPyWS c = false) : (pyStrip q).isEmpty = false := by
  have h1 : c ∈ q.dropWhile isPyWS := by
    have hsplit : q.takeWhile isPyWS ++ q.dropWhile isPyWS = q :=
      List.takeWhile_append_dropWhile isPyWS q
    rcases List.mem_append.mp (hsplit ▸ hc) with h | h
    · exact absurd (List.mem_takeWhile_imp h) (by simp [hw])
    · exact h
  have h2 : c ∈ (q.dropWhile isPyWS).reverse := List.mem_reverse.mpr h1
  have h3 : (q.dropWhile isPyWS).reverse.dropWhile isPyWS ≠ [] := by
    intro hnil
    have := List.dropWhile_eq_nil_iff.mp hnil c h2
    simp [hw] at this
  simp only [pyStrip, List.isEmpty_eq_false]
  simpa using h3

theorem filterMap_const_some {α β : Type} (l : List α) (f : α → β) :
    (l.filterMap fun a => some (f a)) = l.map f := by
  induction l <;> simp_all

/-- C10: a query made only of spaces, hyphens and underscores that still
contains a hyphen or underscore passes validation, normalizes to the
empty string, and — because the empty string is a substring of every
field — every accumulated record matches: the result lists every
collected (possibly hydrated) record, and `total_matches` is the number
of records fetched. -/
theorem separator_query_matches_all (upstream : Nat → PageResponse)
    (fetchT : Nat → Except PyStr (Option Transcript))
    (query : PyStr) (include_transcript : Bool)
    (hq : ∀ c ∈ query, c = ' ' ∨ c = '-' ∨ c = '_')
    (hne : ∃ c ∈ query, c = '-' ∨ c = '_') :
    (search_meetings upstream fetchT query include_transcript).1.total_matches =
      (collectPages upstream).1.length ∧
    (search_meetings upstream fetchT query include_transcript).1.items =
      ((if include_transcript then (hydrate fetchT (collectPages upstream).1).1
        else (collectPages upstream).1).map
        (fun m => _filter_meeting_fields m false)) := by
  obtain ⟨c, hc, hcd⟩ := hne
  have hw : isPyWS c = false := by rcases hcd with rfl | rfl <;> decide
  have hqE : query.isEmpty = false := by
    cases query with
    | nil => cases hc
    | cons a t => rfl
  have hsE : (pyStrip query).isEmpty = false := strip_ne_nil_of_mem hc hw
  have hcond : (query.isEmpty || (pyStrip query).isEmpty) = false := by
    simp [hqE, hsE]
  have hnorm : _normalize_search query = [] := normalize_eq_nil hq
  simp only [search_meetings, hcond, Bool.false_eq_true, if_false, hnorm,
    matches_nil_query, matches_with_transcript_nil_query]
  cases include_transcript with
  | false =>
    simp [filterMap_const_some]
  | true =>
    simp [hydrate, Function.comp_def, filterMap_const_some]

/-- C10 witness: the query `"-"` against a one-record upstream passes
validation and matches the lone record. -/
theorem separator_query_witness :
    (search_meetings (fun _ => { items := [({} : Meeting)] })
        (fun _ => Except.error []) ("-".data) false).1.total_matches =
      (collectPages (fun _ => { items := [({} : Meeting)] })).1.length ∧
    (search_meetings (fun _ => { items := [({} : Meeting)] })
        (fun _ => Except.error []) ("-".data) false).1.items =
      ((if false then
          (hydrate (fun _ => Except.error [])
            (collectPages (fun _ => { items := [({} : Meeting)] })).1).1
        else (collectPages (fun _ => { items := [({} : Meeting)] })).1).map
        (fun m => _filter_meeting_fields m false)) :=
  separator_query_matches_all (fun _ => { items := [({} : Meeting)] })
    (fun _ => Except.error []) ("-".data) false (by decide) (by decide)
